import Mathlib

/-!
# Verification of the CropDoctor client core

Shallow embedding, in Lean 4, of the client-side core of the
crop-monitoring-system dashboard (dashboard module, auth module, and the
frontend auth variant): the TTL response cache, the timed request gateway
(`apiFetch`), the session loader (`loadUserInfo`), the local fallback
estimators (`localYieldPrediction`, `localIrrigationCalc`,
`localFertilizerCalc`, `localWeather`), the admin batch history load
(`loadAdminData`), and the offline-directory upsert (`cacheUser` /
`storeUserLocally`).

Modelling conventions:
* JavaScript numbers are modelled as `Rat` (all arithmetic in these
  functions is exact decimal arithmetic on small values); timestamps
  (`Date.now()`) as `Nat` milliseconds.
* A JS value that may be `null`/`undefined` is an `Option`; JS truthiness
  tests on such fields (`if (data.temperature && ...)`) are modelled by
  explicit truthiness functions (`0`, `""`, `null` are falsy).
* `Math.random()` draws are passed in as explicit `Rat` parameters,
  constrained to `[0, 1)` where a property needs it.
* `toFixed(n)` / `Math.round` produce strings/integers in JS; they are
  modelled as exact rounding on `Rat` (half away from zero, as JS rounds
  the decimal expansions that occur here).
* Non-ASCII string literals in the source snapshot are double-encoded
  (the original UTF-8 bytes were re-decoded as MacRoman); the embedding
  uses the decoded originals (em dash, check marks, emoji).
-/

/-! ## Response cache (dashboard module)

```js
const API_CACHE = new Map();
const CACHE_TTL = 5 * 60 * 1000; // 5 minutes

function getCached(key) {
    const entry = API_CACHE.get(key);
    if (entry && Date.now() - entry.timestamp < CACHE_TTL) return entry.data;
    return null;
}

function setCache(key, data) {
    API_CACHE.set(key, { data, timestamp: Date.now() });
}
```

The `Map` is modelled as an association list in which `set` prepends and
`get` takes the first (most recent) binding, which has the same get/set
semantics as a JS `Map`.  `Date.now()` is passed explicitly.
-/

def CACHE_TTL : Nat := 5 * 60 * 1000

structure CacheEntry (V : Type) where
  data : V
  timestamp : Nat
deriving Repr, DecidableEq

def Cache (V : Type) : Type := List (String × CacheEntry V)

def emptyCache (V : Type) : Cache V := []

def mapGet {V : Type} (cache : Cache V) (key : String) : Option (CacheEntry V) :=
  (cache.find? (fun p => p.1 = key)).map Prod.snd

def getCached {V : Type} (cache : Cache V) (key : String) (now : Nat) : Option V :=
  match mapGet cache key with
  | some entry => if now - entry.timestamp < CACHE_TTL then some entry.data else none
  | none => none

def setCache {V : Type} (cache : Cache V) (key : String) (data : V) (now : Nat) : Cache V :=
  (key, { data := data, timestamp := now }) :: cache

/-- A cache built from the empty `Map` by a sequence of `setCache` calls,
`(key, value, time)` applied left to right. -/
def applyPuts {V : Type} (puts : List (String × V × Nat)) : Cache V :=
  puts.foldl (fun c p => setCache c p.1 p.2.1 p.2.2) (emptyCache V)

lemma getCached_setCache_same {V : Type} (cache : Cache V) (k : String) (v : V) (t now : Nat)
    (h : now - t < CACHE_TTL) :
    getCached (setCache cache k v t) k now = some v := by
  simp [getCached, setCache, mapGet, List.find?, h]

lemma getCached_setCache_expired {V : Type} (cache : Cache V) (k : String) (v : V) (t now : Nat)
    (h : t + CACHE_TTL ≤ now) :
    getCached (setCache cache k v t) k now = none := by
  have h2 : ¬ (now - t < CACHE_TTL) := by omega
  simp [getCached, setCache, mapGet, List.find?, h2]

lemma getCached_never_put {V : Type} (puts : List (String × V × Nat)) (k : String) (now : Nat)
    (h : ∀ p ∈ puts, p.1 ≠ k) :
    getCached (applyPuts puts) k now = none := by
  suffices hfind : ∀ (c : Cache V), mapGet c k = none →
      mapGet (puts.foldl (fun c p => setCache c p.1 p.2.1 p.2.2) c) k = none by
    have := hfind (emptyCache V) (by simp [mapGet, emptyCache, List.find?])
    simp [getCached, applyPuts, this]
  induction puts with
  | nil => intro c hc; simpa using hc
  | cons p rest ih =>
    intro c hc
    have hp : p.1 ≠ k := h p (by simp)
    refine ih (fun q hq => h q (by simp [hq])) _ ?_
    simpa [setCache, mapGet, List.find?, hp] using hc

/-- C1. For every cache key `k` and value `v`: a `getCached k` performed
immediately after `setCache k v` (same `Date.now()`) returns `v`; a
`getCached k` performed once `CACHE_TTL = 300000` ms or more have elapsed
since the `setCache` returns absent (`none`); and a `getCached` on a cache
built from puts none of which used key `k` returns absent. -/
theorem cache_ttl_contract {V : Type} :
    (∀ (cache : Cache V) (k : String) (v : V) (now : Nat),
      getCached (setCache cache k v now) k now = some v) ∧
    (∀ (cache : Cache V) (k : String) (v : V) (t now : Nat),
      t + CACHE_TTL ≤ now → getCached (setCache cache k v t) k now = none) ∧
    (∀ (puts : List (String × V × Nat)) (k : String) (now : Nat),
      (∀ p ∈ puts, p.1 ≠ k) → getCached (applyPuts puts) k now = none) := by
  refine ⟨fun cache k v now => ?_, fun cache k v t now h => ?_, fun puts k now h => ?_⟩
  · exact getCached_setCache_same cache k v now now (by simp [CACHE_TTL])
  · exact getCached_setCache_expired cache k v t now h
  · exact getCached_never_put puts k now h

/-- Witness for C1 at concrete inputs: key `"yield_x"`, value `7`, put at
time `1000`; read back at `1000` gives `some 7`, read at `1000 + 300000`
gives `none`, and a cache with only other keys gives `none`. -/
theorem cache_ttl_contract_witness :
    getCached (setCache (emptyCache Nat) "yield_x" 7 1000) "yield_x" 1000 = some 7 ∧
    getCached (setCache (emptyCache Nat) "yield_x" 7 1000) "yield_x" 301000 = none ∧
    getCached (applyPuts [("weather_pune", 3, 5)]) "yield_x" 1000 = none := by
  refine ⟨(cache_ttl_contract (V := Nat)).1 _ _ _ _,
          (cache_ttl_contract (V := Nat)).2.1 _ _ _ 1000 301000 (by norm_num [CACHE_TTL]),
          (cache_ttl_contract (V := Nat)).2.2 _ _ 1000 ?_⟩
  intro p hp
  simp at hp
  simp [hp]

/-! ## Timed request gateway (dashboard module)

```js
async function apiFetch(url, options = {}) {
    const controller = new AbortController();
    const timeout = setTimeout(() => controller.abort(), 8000); // 8s timeout
    try {
        const token = localStorage.getItem('cropdoctor_token');
        if (token) {
            options.headers = options.headers || {};
            options.headers['Authorization'] = `Bearer ${token}`;
        }
        const response = await fetch(url, { ...options, signal: controller.signal });
        clearTimeout(timeout);
        if (!response.ok) throw new Error(`HTTP ${response.status}`);
        return await response.json();
    } catch (err) {
        clearTimeout(timeout);
        throw err;
    }
}
```

The network is an oracle `net : Nat -> FetchOutcome` giving the outcome of
the n-th `fetch` call issued; the body contains a single non-looping
`fetch`, so the embedding consumes `net 0` and records `attempts = 1`.
`response.ok` is `200 <= status <= 299` (the Fetch standard's definition).
`localStorage.getItem` returns `null` or a string; the empty string is
falsy in JS, so `if (token)` skips it - `jsTruthyStr` models that.
-/

inductive FetchOutcome where
  /-- An HTTP response arrived: its status code and (parsed) body. -/
  | response (status : Nat) (body : String)
  /-- A transport error (DNS/connect failure, or the 8s abort): its cause. -/
  | transportError (cause : String)
deriving Repr, DecidableEq

inductive ApiError where
  /-- `throw new Error(`HTTP ${status}`)` on a non-2xx response. -/
  | http (status : Nat)
  /-- The transport error rethrown by the catch block. -/
  | transport (cause : String)
deriving Repr, DecidableEq

/-- JS truthiness of a nullable string: `null` and `""` are falsy. -/
def jsTruthyStr : Option String → Bool
  | none => false
  | some s => s ≠ ""

def setHeader (headers : List (String × String)) (name value : String) :
    List (String × String) :=
  (name, value) :: headers.filter (fun p => p.1 ≠ name)

/-- Result of one `apiFetch` call: the headers actually sent, the number of
`fetch` attempts issued, and the value returned / error thrown. -/
structure ApiCall where
  sentHeaders : List (String × String)
  attempts : Nat
  result : Except ApiError String
deriving Repr

def apiFetch (token : Option String) (headers : List (String × String))
    (net : Nat → FetchOutcome) : ApiCall :=
  let sent := if jsTruthyStr token
    then setHeader headers "Authorization" ("Bearer " ++ token.getD "")
    else headers
  { sentHeaders := sent
    attempts := 1
    result :=
      match net 0 with
      | .response status body =>
          if 200 ≤ status ∧ status ≤ 299 then .ok body else .error (.http status)
      | .transportError cause => .error (.transport cause) }

/-- C3. `apiFetch` (a) attaches the stored bearer token as an
`Authorization` header when one is present (non-empty), (b) reports every
non-2xx HTTP response as a failure carrying the status code, and (c)
issues exactly one request attempt, with the outcome depending only on
that single attempt — no retry. -/
theorem apiFetch_contract (token : Option String) (headers : List (String × String))
    (net : Nat → FetchOutcome) :
    (∀ t : String, token = some t → t ≠ "" →
      ("Authorization", "Bearer " ++ t) ∈ (apiFetch token headers net).sentHeaders) ∧
    (∀ status body, net 0 = .response status body → ¬ (200 ≤ status ∧ status ≤ 299) →
      (apiFetch token headers net).result = .error (.http status)) ∧
    (∀ cause, net 0 = .transportError cause →
      (apiFetch token headers net).result = .error (.transport cause)) ∧
    (apiFetch token headers net).attempts = 1 ∧
    apiFetch token headers net = apiFetch token headers (fun _ => net 0) := by
  refine ⟨?_, ?_, ?_, rfl, rfl⟩
  · intro t ht hne
    subst ht
    simp [apiFetch, jsTruthyStr, hne, setHeader]
  · intro status body hnet hbad
    simp [apiFetch, hnet, hbad]
  · intro cause hnet
    simp [apiFetch, hnet]

/-- Witness for C3: token `"tok"`, a 404 response on the single attempt.
The Authorization header is sent, the result is the HTTP-404 failure, and
exactly one attempt was issued. -/
theorem apiFetch_contract_witness :
    ("Authorization", "Bearer tok") ∈
      (apiFetch (some "tok") [] (fun _ => .response 404 "")).sentHeaders ∧
    (apiFetch (some "tok") [] (fun _ => .response 404 "")).result = .error (.http 404) ∧
    (apiFetch (some "tok") [] (fun _ => .response 404 "")).attempts = 1 := by
  refine ⟨(apiFetch_contract (some "tok") [] _).1 "tok" rfl (by decide),
          (apiFetch_contract (some "tok") [] _).2.1 404 "" rfl (by decide),
          (apiFetch_contract (some "tok") [] _).2.2.2.1⟩

/-! ## Yield fallback estimator (dashboard module)

```js
function localYieldPrediction(data) {
    const baseYields = { rice: 4.5, wheat: 3.8, corn: 6.2, soybean: 2.8,
        cotton: 1.8, sugarcane: 70, potato: 25, tomato: 30 };
    const soilMult = { clay: 0.92, sandy: 0.78, loamy: 1.1, silt: 1.0, peat: 0.88, chalky: 0.82 };
    const seasonMult = { kharif: 1.05, rabi: 0.95, zaid: 0.85 };
    let y = (baseYields[data.crop] || 4.0) * (soilMult[data.soil] || 1.0) * (seasonMult[data.season] || 1.0);
    if (data.temperature && (data.temperature > 35 || data.temperature < 10)) y *= 0.85;
    if (data.rainfall && data.rainfall > 300) y *= 0.9;
    if (data.rainfall && data.rainfall < 50) y *= 0.8;
    y *= (0.95 + Math.random() * 0.1);
    return { yield_per_hectare: y.toFixed(2), total_yield: (y * data.area).toFixed(2),
        crop: data.crop, area: data.area,
        confidence: (78 + Math.random() * 17).toFixed(1),
        model: 'DSSAT + Random Forest Regression v2.1' };
}
```

`data` is the request object built in `predictYield`: `rainfall` and
`temperature` are `parseFloat(...) || null`, so they are nullable numbers
and the guards `data.temperature && ...` are JS truthiness tests (`null`
and `0` are falsy).  The two `Math.random()` draws are the parameters
`r1` (jitter) and `r2` (confidence).
-/

/-- JS truthiness of a nullable number: `null` and `0` are falsy. -/
def jsTruthyNum : Option Rat → Bool
  | none => false
  | some x => x ≠ 0

/-- `tbl[k] || d` for an object used as a lookup table whose values are
all truthy (none of the tables below contains `0`). -/
def lookupOr (tbl : List (String × Rat)) (k : String) (d : Rat) : Rat :=
  (tbl.lookup k).getD d

def baseYields : List (String × Rat) :=
  [("rice", 4.5), ("wheat", 3.8), ("corn", 6.2), ("soybean", 2.8),
   ("cotton", 1.8), ("sugarcane", 70), ("potato", 25), ("tomato", 30)]

def soilMult : List (String × Rat) :=
  [("clay", 0.92), ("sandy", 0.78), ("loamy", 1.1), ("silt", 1.0),
   ("peat", 0.88), ("chalky", 0.82)]

def seasonMult : List (String × Rat) :=
  [("kharif", 1.05), ("rabi", 0.95), ("zaid", 0.85)]

/-- The yield request object built in `predictYield` from the form. -/
structure YieldData where
  crop : String
  soil : String
  area : Rat
  season : String
  sowing_date : String
  harvest_date : Option String
  rainfall : Option Rat
  temperature : Option Rat
deriving Repr, DecidableEq

/-- The local variable `y` of `localYieldPrediction` just before the
`toFixed` formatting: base product, conditional penalties, jitter. -/
def localYield_y (data : YieldData) (r1 : Rat) : Rat :=
  let y0 := lookupOr baseYields data.crop 4.0 * lookupOr soilMult data.soil 1.0 *
    lookupOr seasonMult data.season 1.0
  let t := data.temperature.getD 0
  let y1 := if jsTruthyNum data.temperature ∧ (t > 35 ∨ t < 10) then y0 * 0.85 else y0
  let rf := data.rainfall.getD 0
  let y2 := if jsTruthyNum data.rainfall ∧ rf > 300 then y1 * 0.9 else y1
  let y3 := if jsTruthyNum data.rainfall ∧ rf < 50 then y2 * 0.8 else y2
  y3 * (0.95 + r1 * 0.1)

/-- `x.toFixed(2)` as exact decimal rounding (JS rounds half away from
zero on the short decimals occurring here; the result string is kept as
the rational it denotes). -/
def toFixed2 (x : Rat) : Rat := (⌊x * 100 + 1/2⌋ : Rat) / 100

def toFixed1 (x : Rat) : Rat := (⌊x * 10 + 1/2⌋ : Rat) / 10

structure YieldResult where
  yield_per_hectare : Rat
  total_yield : Rat
  crop : String
  area : Rat
  confidence : Rat
  model : String
deriving Repr, DecidableEq

def localYieldPrediction (data : YieldData) (r1 r2 : Rat) : YieldResult :=
  let y := localYield_y data r1
  { yield_per_hectare := toFixed2 y
    total_yield := toFixed2 (y * data.area)
    crop := data.crop
    area := data.area
    confidence := toFixed1 (78 + r2 * 17)
    model := "DSSAT + Random Forest Regression v2.1" }

/-- Factored form of `localYield_y`: base product times one factor per
conditional penalty times the jitter factor. -/
lemma localYield_y_eq (data : YieldData) (r1 : Rat) :
    localYield_y data r1 =
      (lookupOr baseYields data.crop 4.0 * lookupOr soilMult data.soil 1.0 *
        lookupOr seasonMult data.season 1.0) *
      (if jsTruthyNum data.temperature ∧
          (data.temperature.getD 0 > 35 ∨ data.temperature.getD 0 < 10) then 0.85 else 1) *
      (if jsTruthyNum data.rainfall ∧ data.rainfall.getD 0 > 300 then 0.9 else 1) *
      (if jsTruthyNum data.rainfall ∧ data.rainfall.getD 0 < 50 then 0.8 else 1) *
      (0.95 + r1 * 0.1) := by
  unfold localYield_y
  dsimp only
  split_ifs <;> ring

/-- The temperature penalty factors out of `localYield_y`: the yield is
the yield of the same request with no temperature, times 0.85 exactly
when the temperature guard of the source fires. -/
lemma localYield_y_temp_factor (data : YieldData) (r1 : Rat) :
    localYield_y data r1 =
      (if jsTruthyNum data.temperature ∧
          (data.temperature.getD 0 > 35 ∨ data.temperature.getD 0 < 10) then (0.85 : Rat)
        else 1) *
      localYield_y { data with temperature := none } r1 := by
  rw [localYield_y_eq, localYield_y_eq]
  dsimp only
  have hneg : ¬ (jsTruthyNum (none : Option Rat) = true ∧
      ((none : Option Rat).getD 0 > 35 ∨ (none : Option Rat).getD 0 < 10)) := by
    simp [jsTruthyNum]
  rw [if_neg hneg]
  split_ifs <;> ring

/-- C5 (amended). The 0.85 temperature penalty is applied exactly when the
supplied temperature is truthy (present and nonzero) and outside
[10, 35] °C: relative to the same request with no temperature, the yield
value is multiplied by 0.85 when `t ≠ 0` and `t > 35 ∨ t < 10`, and is
unchanged when `t` is in [10, 35] — so the boundary values 10 and 35 are
not penalized while 9.9 and 35.1 are — but it is also unchanged when
`t = 0`, because `data.temperature && ...` is falsy at 0. -/
theorem yield_temp_penalty (data : YieldData) (r1 t : Rat)
    (ht : data.temperature = some t) :
    ((t ≠ 0 ∧ (t > 35 ∨ t < 10)) →
      localYield_y data r1 = 0.85 * localYield_y { data with temperature := none } r1) ∧
    ((t = 0 ∨ (10 ≤ t ∧ t ≤ 35)) →
      localYield_y data r1 = localYield_y { data with temperature := none } r1) := by
  constructor <;> intro h
  · have hc : (jsTruthyNum data.temperature = true ∧
        (data.temperature.getD 0 > 35 ∨ data.temperature.getD 0 < 10)) := by
      rw [ht]
      exact ⟨by simp [jsTruthyNum, h.1], by simpa using h.2⟩
    rw [localYield_y_temp_factor data r1, if_pos hc]
  · have hc : ¬ (jsTruthyNum data.temperature = true ∧
        (data.temperature.getD 0 > 35 ∨ data.temperature.getD 0 < 10)) := by
      rw [ht]
      rcases h with h0 | ⟨h10, h35⟩
      · simp [jsTruthyNum, h0]
      · simp only [Option.getD_some]
        rintro ⟨-, hbad | hbad⟩
        · linarith
        · linarith
    rw [localYield_y_temp_factor data r1, if_neg hc, one_mul]

/-- A concrete yield request — rice on clay in kharif season, 1 hectare,
no rainfall — with the given temperature field. -/
def yieldReqRCK (temp : Option Rat) : YieldData where
  crop := "rice"
  soil := "clay"
  area := 1
  season := "kharif"
  sowing_date := ""
  harvest_date := none
  rainfall := none
  temperature := temp

/-- Witness for C5 (amended) at concrete inputs: for the rice/clay/kharif
request, 9.9 °C and 35.1 °C are penalized (×0.85) and the boundary values
10 °C and 35 °C are not, relative to the request with no temperature. -/
theorem yield_temp_penalty_witness :
    (localYield_y (yieldReqRCK (some 9.9)) 0 =
      0.85 * localYield_y { yieldReqRCK (some 9.9) with temperature := none } 0) ∧
    (localYield_y (yieldReqRCK (some 35.1)) 0 =
      0.85 * localYield_y { yieldReqRCK (some 35.1) with temperature := none } 0) ∧
    (localYield_y (yieldReqRCK (some 10)) 0 =
      localYield_y { yieldReqRCK (some 10) with temperature := none } 0) ∧
    (localYield_y (yieldReqRCK (some 35)) 0 =
      localYield_y { yieldReqRCK (some 35) with temperature := none } 0) := by
  refine ⟨(yield_temp_penalty _ 0 9.9 rfl).1 ⟨by norm_num, Or.inr (by norm_num)⟩,
          (yield_temp_penalty _ 0 35.1 rfl).1 ⟨by norm_num, Or.inl (by norm_num)⟩,
          (yield_temp_penalty _ 0 10 rfl).2 (Or.inr ⟨le_refl _, by norm_num⟩),
          (yield_temp_penalty _ 0 35 rfl).2 (Or.inr ⟨by norm_num, le_refl _⟩)⟩

/-- Counterexample to C5 as stated: 0 °C is outside [10, 35], yet the
penalty is not applied — the yield for the rice/clay/kharif request at
0 °C equals the unpenalized value `4.5 × 0.92 × 1.05 × 0.95 = 4.12965`,
not 0.85 times it, because `data.temperature && ...` is falsy at 0. -/
theorem yield_temp_penalty_zero_counterexample :
    (0 : Rat) < 10 ∧
    localYield_y (yieldReqRCK (some 0)) 0 = 4.12965 ∧
    localYield_y (yieldReqRCK none) 0 = 4.12965 ∧
    (4.12965 : Rat) ≠ 0.85 * 4.12965 := by
  refine ⟨by norm_num, ?_, ?_, by norm_num⟩ <;>
    norm_num [localYield_y, lookupOr, baseYields, soilMult, seasonMult, jsTruthyNum,
      List.lookup, yieldReqRCK]

/-! ## Weather fallback estimator (dashboard module)

```js
function localWeather(location) {
    const icons = ['☀️', '🌤️', '⛅', '☁️', '🌧️', '⛈️'];
    const descs = ['Sunny', 'Partly Cloudy', 'Mostly Cloudy', 'Cloudy', 'Light Rain', 'Thunderstorm'];
    const idx = Math.floor(Math.random() * 3);
    const days = ['Mon', 'Tue', 'Wed', 'Thu', 'Fri'];
    const forecast = days.map(day => ({
        day, icon: icons[Math.floor(Math.random() * icons.length)],
        high: 25 + Math.floor(Math.random() * 10),
        low: 18 + Math.floor(Math.random() * 7)
    }));
    return {
        temp: 25 + Math.floor(Math.random() * 10), icon: icons[idx],
        description: descs[idx], location,
        humidity: 55 + Math.floor(Math.random() * 30),
        wind: 8 + Math.floor(Math.random() * 20),
        pressure: 1008 + Math.floor(Math.random() * 15),
        forecast,
        advisory: `Weather in ${location}: ${descs[idx]}. ${idx < 3 ?
            'Favorable for field operations and spraying.' :
            'Consider delaying field operations. Protect seedlings from rainfall.'}
            Monitor updates before planning irrigation.`
    };
}
```

Each `Math.random()` draw is a field of `WeatherRng` (one per scalar, one
per forecast day and role).  Out-of-range indexing (`icons[idx]` with
`idx ≥ 6`, impossible for in-range draws) yields JS `undefined`, modelled
by the default `"undefined"`.
-/

def weatherIcons : List String := ["☀️", "🌤️", "⛅", "☁️", "🌧️", "⛈️"]

def weatherDescs : List String :=
  ["Sunny", "Partly Cloudy", "Mostly Cloudy", "Cloudy", "Light Rain", "Thunderstorm"]

def weatherDays : List String := ["Mon", "Tue", "Wed", "Thu", "Fri"]

/-- The `Math.random()` draws consumed by one `localWeather` call. -/
structure WeatherRng where
  rIdx : Rat
  rTemp : Rat
  rHum : Rat
  rWind : Rat
  rPress : Rat
  rFIcon : Nat → Rat
  rFHigh : Nat → Rat
  rFLow : Nat → Rat

/-- `Math.floor` on a nonnegative draw, as a natural number index. -/
def jsFloorNat (x : Rat) : Nat := (⌊x⌋ : Int).toNat

structure ForecastDay where
  day : String
  icon : String
  high : Int
  low : Int
deriving Repr, DecidableEq

structure WeatherResult where
  temp : Int
  icon : String
  description : String
  location : String
  humidity : Int
  wind : Int
  pressure : Int
  forecast : List ForecastDay
  advisory : String
deriving Repr, DecidableEq

def localWeather (location : String) (rng : WeatherRng) : WeatherResult :=
  let idx := jsFloorNat (rng.rIdx * 3)
  let forecast := List.mapIdx (fun i day =>
    { day := day
      icon := weatherIcons.getD (jsFloorNat (rng.rFIcon i * 6)) "undefined"
      high := 25 + ⌊rng.rFHigh i * 10⌋
      low := 18 + ⌊rng.rFLow i * 7⌋ : ForecastDay }) weatherDays
  { temp := 25 + ⌊rng.rTemp * 10⌋
    icon := weatherIcons.getD idx "undefined"
    description := weatherDescs.getD idx "undefined"
    location := location
    humidity := 55 + ⌊rng.rHum * 30⌋
    wind := 8 + ⌊rng.rWind * 20⌋
    pressure := 1008 + ⌊rng.rPress * 15⌋
    forecast := forecast
    advisory := "Weather in " ++ location ++ ": " ++ weatherDescs.getD idx "undefined" ++
      ". " ++
      (if idx < 3 then "Favorable for field operations and spraying."
        else "Consider delaying field operations. Protect seedlings from rainfall.") ++
      " Monitor updates before planning irrigation." }

/-- C10. For every random draw in [0, 1), the current-conditions index of
`localWeather` is `⌊3·r⌋ ∈ {0, 1, 2}`, so the current description is one
of Sunny / Partly Cloudy / Mostly Cloudy, the current icon one of the
first three (non-rain) icons, and the advisory always takes the
"Favorable for field operations and spraying." branch — the rain and
thunderstorm entries and the delay-operations advisory are unreachable
for current conditions. -/
theorem localWeather_current_favorable (location : String) (rng : WeatherRng)
    (h0 : 0 ≤ rng.rIdx) (h1 : rng.rIdx < 1) :
    (localWeather location rng).description ∈
      (["Sunny", "Partly Cloudy", "Mostly Cloudy"] : List String) ∧
    (localWeather location rng).icon ∈ (["☀️", "🌤️", "⛅"] : List String) ∧
    (localWeather location rng).advisory =
      "Weather in " ++ location ++ ": " ++ (localWeather location rng).description ++
      ". " ++ "Favorable for field operations and spraying." ++
      " Monitor updates before planning irrigation." := by
  have hfloor : (⌊rng.rIdx * 3⌋ : Int) < 3 := by
    rw [Int.floor_lt]
    push_cast
    linarith
  have h3 : jsFloorNat (rng.rIdx * 3) < 3 := by
    unfold jsFloorNat
    omega
  have hd : (localWeather location rng).description =
      weatherDescs.getD (jsFloorNat (rng.rIdx * 3)) "undefined" := rfl
  have hi : (localWeather location rng).icon =
      weatherIcons.getD (jsFloorNat (rng.rIdx * 3)) "undefined" := rfl
  have ha : (localWeather location rng).advisory =
      "Weather in " ++ location ++ ": " ++
        weatherDescs.getD (jsFloorNat (rng.rIdx * 3)) "undefined" ++ ". " ++
        (if jsFloorNat (rng.rIdx * 3) < 3 then
          "Favorable for field operations and spraying."
         else "Consider delaying field operations. Protect seedlings from rainfall.") ++
        " Monitor updates before planning irrigation." := rfl
  rw [hd, hi, ha, if_pos h3]
  have hcase : jsFloorNat (rng.rIdx * 3) = 0 ∨ jsFloorNat (rng.rIdx * 3) = 1 ∨
      jsFloorNat (rng.rIdx * 3) = 2 := by omega
  rcases hcase with hc | hc | hc <;> rw [hc] <;>
    exact ⟨by simp [weatherDescs], by simp [weatherIcons], by simp [weatherDescs]⟩

/-- A concrete bundle of random draws (all zero). -/
def rng0 : WeatherRng where
  rIdx := 0
  rTemp := 0
  rHum := 0
  rWind := 0
  rPress := 0
  rFIcon := fun _ => 0
  rFHigh := fun _ => 0
  rFLow := fun _ => 0

/-- Witness for C10 at the concrete draw 0: description "Sunny", icon
"☀️", and the favorable advisory. -/
theorem localWeather_current_favorable_witness :
    (localWeather "Pune" rng0).description ∈
      (["Sunny", "Partly Cloudy", "Mostly Cloudy"] : List String) ∧
    (localWeather "Pune" rng0).icon ∈ (["☀️", "🌤️", "⛅"] : List String) ∧
    (localWeather "Pune" rng0).advisory =
      "Weather in " ++ "Pune" ++ ": " ++ (localWeather "Pune" rng0).description ++
      ". " ++ "Favorable for field operations and spraying." ++
      " Monitor updates before planning irrigation." :=
  localWeather_current_favorable "Pune" rng0 (le_refl 0) (by norm_num [rng0])

/-! ## Advisory flow: cache, gateway, fallback (dashboard module)

`predictYield` (yield) and `getWeather` (weather) share the shape

```js
    const cached = getCached(cacheKey);
    if (cached) { display(cached); return; }
    try {
        const result = await apiFetch(url, ...);
        setCache(cacheKey, result);
        display(result);
    } catch (error) {
        display(localFallback(data));
    }
```

The gateway call is its already-settled outcome
`gw : Except ApiError result`; the flow returns the displayed result and
the cache after the call.  `JSON.stringify(data)` in the cache key is
modelled as a deterministic field-by-field serialization (`yieldCacheKey`);
its exact format is immaterial here, only that it is a function of the
request.
-/

def optStrJson : Option String → String
  | none => "null"
  | some s => s

def optRatJson : Option Rat → String
  | none => "null"
  | some x => toString x

/-- `'yield_' + JSON.stringify(data)`. -/
def yieldCacheKey (d : YieldData) : String :=
  "yield_" ++ d.crop ++ "," ++ d.soil ++ "," ++ toString d.area ++ "," ++ d.season ++ "," ++
    d.sowing_date ++ "," ++ optStrJson d.harvest_date ++ "," ++ optRatJson d.rainfall ++ "," ++
    optRatJson d.temperature

/-- `'weather_' + location.toLowerCase()`. -/
def weatherCacheKey (location : String) : String :=
  "weather_" ++ location.toLower

def predictYieldFlow (data : YieldData) (cache : Cache YieldResult) (now : Nat)
    (gw : Except ApiError YieldResult) (r1 r2 : Rat) :
    YieldResult × Cache YieldResult :=
  match getCached cache (yieldCacheKey data) now with
  | some cached => (cached, cache)
  | none =>
    match gw with
    | .ok result => (result, setCache cache (yieldCacheKey data) result now)
    | .error _ => (localYieldPrediction data r1 r2, cache)

def getWeatherFlow (location : String) (cache : Cache WeatherResult) (now : Nat)
    (gw : Except ApiError WeatherResult) (rng : WeatherRng) :
    WeatherResult × Cache WeatherResult :=
  match getCached cache (weatherCacheKey location) now with
  | some cached => (cached, cache)
  | none =>
    match gw with
    | .ok result => (result, setCache cache (weatherCacheKey location) result now)
    | .error _ => (localWeather location rng, cache)

/-- C2. On a cache miss, if the gateway call fails, the displayed result
is the local fallback estimate computed from the same request and the
cache is unchanged — for both the yield flow and the weather flow; and
conversely the yield flow mutates the cache only when the gateway
succeeded on a cache miss (so `setCache` runs only after a successful
remote response). -/
theorem gateway_failure_displays_fallback (data : YieldData) (location : String) :
    (∀ (cache : Cache YieldResult) (now : Nat) (e : ApiError) (r1 r2 : Rat),
      getCached cache (yieldCacheKey data) now = none →
      predictYieldFlow data cache now (.error e) r1 r2 =
        (localYieldPrediction data r1 r2, cache)) ∧
    (∀ (cache : Cache WeatherResult) (now : Nat) (e : ApiError) (rng : WeatherRng),
      getCached cache (weatherCacheKey location) now = none →
      getWeatherFlow location cache now (.error e) rng = (localWeather location rng, cache)) ∧
    (∀ (cache : Cache YieldResult) (now : Nat) (gw : Except ApiError YieldResult) (r1 r2 : Rat),
      (predictYieldFlow data cache now gw r1 r2).2 ≠ cache →
      ∃ v, gw = .ok v ∧ getCached cache (yieldCacheKey data) now = none ∧
        (predictYieldFlow data cache now gw r1 r2).2 =
          setCache cache (yieldCacheKey data) v now) := by
  refine ⟨fun cache now e r1 r2 h => ?_, fun cache now e rng h => ?_,
    fun cache now gw r1 r2 hne => ?_⟩
  · simp [predictYieldFlow, h]
  · simp [getWeatherFlow, h]
  · cases hget : getCached cache (yieldCacheKey data) now with
    | some cached => simp [predictYieldFlow, hget] at hne
    | none =>
      cases gw with
      | error e => simp [predictYieldFlow, hget] at hne
      | ok v => exact ⟨v, rfl, rfl, by simp [predictYieldFlow, hget]⟩

/-- Witness for C2 at concrete inputs: an offline transport failure on an
empty cache displays the local estimate and leaves the cache empty (yield
and weather); and a successful remote yield response on an empty cache
writes exactly that response into the cache. -/
theorem gateway_failure_displays_fallback_witness :
    predictYieldFlow (yieldReqRCK none) (emptyCache YieldResult) 5
        (.error (.transport "offline")) 0 0 =
      (localYieldPrediction (yieldReqRCK none) 0 0, emptyCache YieldResult) ∧
    getWeatherFlow "Pune" (emptyCache WeatherResult) 5 (.error (.transport "offline")) rng0 =
      (localWeather "Pune" rng0, emptyCache WeatherResult) ∧
    (∃ v, (Except.ok (localYieldPrediction (yieldReqRCK none) 0 0) :
        Except ApiError YieldResult) = .ok v ∧
      getCached (emptyCache YieldResult) (yieldCacheKey (yieldReqRCK none)) 5 = none ∧
      (predictYieldFlow (yieldReqRCK none) (emptyCache YieldResult) 5
        (.ok (localYieldPrediction (yieldReqRCK none) 0 0)) 0 0).2 =
        setCache (emptyCache YieldResult) (yieldCacheKey (yieldReqRCK none)) v 5) := by
  refine ⟨(gateway_failure_displays_fallback (yieldReqRCK none) "Pune").1 _ 5 _ 0 0 rfl,
          (gateway_failure_displays_fallback (yieldReqRCK none) "Pune").2.1 _ 5 _ rng0 rfl,
          (gateway_failure_displays_fallback (yieldReqRCK none) "Pune").2.2
            (emptyCache YieldResult) 5
            (.ok (localYieldPrediction (yieldReqRCK none) 0 0)) 0 0 ?_⟩
  simp [predictYieldFlow, getCached, mapGet, emptyCache, setCache]

/-! ## Irrigation fallback estimator (dashboard module)

```js
function localIrrigationCalc(data) {
    const waterNeeds = { rice: 6000, wheat: 3500, corn: 4500, soybean: 3000, cotton: 4000, sugarcane: 7000 };
    const stageMult = { seedling: 0.6, vegetative: 1.0, flowering: 1.3, fruiting: 1.1, maturity: 0.5 };
    const soilDrain = { clay: 0.7, sandy: 1.4, loamy: 1.0, silt: 0.9 };
    let water = (waterNeeds[data.crop] || 4000) * (stageMult[data.stage] || 1.0) * (soilDrain[data.soil] || 1.0);
    let schedule = data.moisture > 60 ? '72h' : data.moisture > 40 ? '48h' : '24h';
    let moistureStatus = data.moisture < 30 ? 'Critical — Irrigate Immediately' :
        data.moisture < 40 ? 'Low — Schedule Irrigation' :
            data.moisture > 70 ? 'High — Reduce Irrigation' : 'Adequate';
    return { water_per_day: Math.round(water), schedule, moisture_status: moistureStatus,
        recommendation: `For ${data.crop} in ${data.soil} soil at ${data.stage} stage: ...`,
        moisture_level: data.moisture + '%' };
}
```

`moisture` comes from `parseFloat(...) || 40`, a plain number.
`moisture_level` is kept as the number (the display drops only a literal
`'%'` suffix).
-/

def waterNeeds : List (String × Rat) :=
  [("rice", 6000), ("wheat", 3500), ("corn", 4500), ("soybean", 3000),
   ("cotton", 4000), ("sugarcane", 7000)]

def stageMult : List (String × Rat) :=
  [("seedling", 0.6), ("vegetative", 1.0), ("flowering", 1.3), ("fruiting", 1.1),
   ("maturity", 0.5)]

def soilDrain : List (String × Rat) :=
  [("clay", 0.7), ("sandy", 1.4), ("loamy", 1.0), ("silt", 0.9)]

/-- `Math.round`: round half toward positive infinity. -/
def jsRound (x : Rat) : Int := ⌊x + 1/2⌋

/-- The irrigation request object built in `getIrrigationAdvice`. -/
structure IrrigationData where
  crop : String
  soil : String
  moisture : Rat
  stage : String
deriving Repr, DecidableEq

structure IrrigationResult where
  water_per_day : Int
  schedule : String
  moisture_status : String
  recommendation : String
  moisture_level : Rat
deriving Repr, DecidableEq

def localIrrigationCalc (data : IrrigationData) : IrrigationResult :=
  let water := lookupOr waterNeeds data.crop 4000 * lookupOr stageMult data.stage 1.0 *
    lookupOr soilDrain data.soil 1.0
  let schedule := if data.moisture > 60 then "72h"
    else if data.moisture > 40 then "48h" else "24h"
  let moistureStatus := if data.moisture < 30 then "Critical — Irrigate Immediately"
    else if data.moisture < 40 then "Low — Schedule Irrigation"
    else if data.moisture > 70 then "High — Reduce Irrigation"
    else "Adequate"
  { water_per_day := jsRound water
    schedule := schedule
    moisture_status := moistureStatus
    recommendation := "For " ++ data.crop ++ " in " ++ data.soil ++ " soil at " ++
      data.stage ++ " stage: " ++
      (if data.moisture < 35 then "⚠️ Immediate irrigation recommended."
        else "✅ Moisture levels acceptable.") ++
      " Apply water early morning or late evening." ++
      " Consider drip irrigation for 40% water savings."
    moisture_level := data.moisture }

/-- C6. For every irrigation request, the fallback computes water as
`waterNeed(crop) × stageMultiplier(stage) × soilDrainage(soil)` (rounded),
chooses the schedule bucket by moisture (`>60 → 72h`, `>40 → 48h`, else
`24h`) and the moisture status text by moisture (`<30` critical, `<40`
low, `>70` high, else adequate); in particular the request
`{crop: rice, soil: clay, moisture: 25, stage: vegetative}` yields
schedule `"24h"`, status `"Critical — Irrigate Immediately"`, and water
`6000 × 1.0 × 0.7 = 4200`. -/
theorem localIrrigationCalc_contract (d : IrrigationData) :
    ((localIrrigationCalc d).water_per_day =
      jsRound (lookupOr waterNeeds d.crop 4000 * lookupOr stageMult d.stage 1.0 *
        lookupOr soilDrain d.soil 1.0)) ∧
    ((localIrrigationCalc d).schedule =
      if d.moisture > 60 then "72h" else if d.moisture > 40 then "48h" else "24h") ∧
    ((localIrrigationCalc d).moisture_status =
      if d.moisture < 30 then "Critical — Irrigate Immediately"
      else if d.moisture < 40 then "Low — Schedule Irrigation"
      else if d.moisture > 70 then "High — Reduce Irrigation"
      else "Adequate") ∧
    ((localIrrigationCalc ⟨"rice", "clay", 25, "vegetative"⟩).schedule = "24h" ∧
      (localIrrigationCalc ⟨"rice", "clay", 25, "vegetative"⟩).moisture_status =
        "Critical — Irrigate Immediately" ∧
      (localIrrigationCalc ⟨"rice", "clay", 25, "vegetative"⟩).water_per_day = 4200 ∧
      lookupOr waterNeeds "rice" 4000 = 6000 ∧ lookupOr stageMult "vegetative" 1.0 = 1 ∧
      lookupOr soilDrain "clay" 1.0 = 0.7) := by
  refine ⟨rfl, rfl, rfl, ?_, ?_, ?_, ?_, ?_, ?_⟩ <;>
    simp [localIrrigationCalc, lookupOr, waterNeeds, stageMult, soilDrain, List.lookup,
      jsRound] <;>
    norm_num

/-! ## Fertilizer fallback estimator (dashboard module)

```js
function localFertilizerCalc(data) {
    const db = {
        rice: { n: {...}, p: {...}, k: {...} },
        wheat: { n: {...}, p: {...}, k: {...} },
        corn: { n: {...}, p: {...}, k: {...} }
    };
    const rec = db[data.crop] || db.rice;
    return { fertilizers: [rec.n, rec.p, rec.k], tips: `For ${data.crop} ...` };
}
```
-/

structure FertEntry where
  name : String
  dosage : String
  icon : String
  desc : String
deriving Repr, DecidableEq

structure FertRow where
  n : FertEntry
  p : FertEntry
  k : FertEntry
deriving Repr, DecidableEq

def riceFertRow : FertRow where
  n := ⟨"Urea (N)", "120 kg/ha", "🟢", "Apply in 3 split doses"⟩
  p := ⟨"DAP (P)", "60 kg/ha", "🟡", "Apply at basal"⟩
  k := ⟨"MOP (K)", "40 kg/ha", "🔴", "Apply at basal & tillering"⟩

def wheatFertRow : FertRow where
  n := ⟨"Urea (N)", "100 kg/ha", "🟢", "Apply in 2 split doses"⟩
  p := ⟨"SSP (P)", "50 kg/ha", "🟡", "Apply at sowing"⟩
  k := ⟨"MOP (K)", "30 kg/ha", "🔴", "Apply at sowing"⟩

def cornFertRow : FertRow where
  n := ⟨"Urea (N)", "150 kg/ha", "🟢", "Apply in 3 split doses"⟩
  p := ⟨"DAP (P)", "70 kg/ha", "🟡", "Apply at basal"⟩
  k := ⟨"MOP (K)", "50 kg/ha", "🔴", "Apply at basal"⟩

def fertDb : List (String × FertRow) :=
  [("rice", riceFertRow), ("wheat", wheatFertRow), ("corn", cornFertRow)]

/-- The fertilizer request object built in `getFertilizerAdvice`. -/
structure FertData where
  crop : String
  soil : String
  area : Rat
  stage : String
deriving Repr, DecidableEq

structure FertResult where
  fertilizers : List FertEntry
  tips : String
deriving Repr, DecidableEq

def localFertilizerCalc (data : FertData) : FertResult :=
  let recRow := (fertDb.lookup data.crop).getD riceFertRow
  { fertilizers := [recRow.n, recRow.p, recRow.k]
    tips := "For " ++ data.crop ++ " in " ++ data.soil ++ " soil at " ++ data.stage ++
      " stage: Apply fertilizers when soil has adequate moisture." ++
      " Best time is early morning or late evening." ++
      " Consider soil testing every season for precise recommendations." }

/-- C7. For every fertilizer request whose crop is not a key of the N/P/K
table (any crop other than rice, wheat, corn), the fallback returns the
three entries of the "rice" row; for a crop present in the table it
returns that crop's N, P and K entries in that order. -/
theorem localFertilizerCalc_rows (data : FertData) :
    (data.crop ∉ (["rice", "wheat", "corn"] : List String) →
      (localFertilizerCalc data).fertilizers =
        [riceFertRow.n, riceFertRow.p, riceFertRow.k]) ∧
    (data.crop = "rice" →
      (localFertilizerCalc data).fertilizers =
        [riceFertRow.n, riceFertRow.p, riceFertRow.k]) ∧
    (data.crop = "wheat" →
      (localFertilizerCalc data).fertilizers =
        [wheatFertRow.n, wheatFertRow.p, wheatFertRow.k]) ∧
    (data.crop = "corn" →
      (localFertilizerCalc data).fertilizers =
        [cornFertRow.n, cornFertRow.p, cornFertRow.k]) := by
  refine ⟨fun h => ?_, fun h => ?_, fun h => ?_, fun h => ?_⟩
  · simp only [List.mem_cons, List.mem_singleton, not_or] at h
    obtain ⟨h1, h2, h3, -⟩ := h
    have e1 : (data.crop == "rice") = false := beq_eq_false_iff_ne.mpr h1
    have e2 : (data.crop == "wheat") = false := beq_eq_false_iff_ne.mpr h2
    have e3 : (data.crop == "corn") = false := beq_eq_false_iff_ne.mpr h3
    simp [localFertilizerCalc, fertDb, List.lookup, e1, e2, e3]
  · simp [localFertilizerCalc, fertDb, List.lookup, h]
  · simp [localFertilizerCalc, fertDb, List.lookup, h]
  · simp [localFertilizerCalc, fertDb, List.lookup, h]

/-- Witness for C7 at concrete crops: `"soybean"` (not in the table)
falls back to the rice row; `"wheat"` returns the wheat row. -/
theorem localFertilizerCalc_rows_witness :
    (localFertilizerCalc ⟨"soybean", "loamy", 1, "vegetative"⟩).fertilizers =
      [riceFertRow.n, riceFertRow.p, riceFertRow.k] ∧
    (localFertilizerCalc ⟨"wheat", "loamy", 1, "vegetative"⟩).fertilizers =
      [wheatFertRow.n, wheatFertRow.p, wheatFertRow.k] :=
  ⟨(localFertilizerCalc_rows ⟨"soybean", "loamy", 1, "vegetative"⟩).1 (by decide),
   (localFertilizerCalc_rows ⟨"wheat", "loamy", 1, "vegetative"⟩).2.2.1 rfl⟩

/-! ## Session loader (dashboard module)

```js
function loadUserInfo() {
    const raw = localStorage.getItem('cropdoctor_user');
    if (!raw) { window.location.href = 'login.html'; return; }
    let userData;
    try { userData = JSON.parse(raw); } catch (e) {
        localStorage.removeItem('cropdoctor_user');
        window.location.href = 'login.html'; return;
    }
    if (!userData || !userData.name) {
        localStorage.removeItem('cropdoctor_user');
        window.location.href = 'login.html'; return;
    }
    ... // accepted: render avatar/name/role from userData
}
```

The persisted record is modelled by what `getItem` + `JSON.parse` can
yield: absent, unparseable, parseable-but-not-a-usable-object (`null` or
a non-object value, whose `.name` is `undefined`), or an object.  The
required-field check of the source is `!userData.name` (name missing or
empty).
-/

/-- An object stored under `cropdoctor_user`, restricted to the fields the
loader reads; a missing field is `none`. -/
structure UserData where
  name : Option String
  initials : Option String
  photo : Option String
  role : Option String
deriving Repr, DecidableEq

/-- The result of `getItem` + `JSON.parse` on the persisted record. -/
inductive StoredSession where
  /-- `getItem` returned `null`. -/
  | absent
  /-- `JSON.parse` threw. -/
  | malformed
  /-- parse succeeded but gave `null` or a non-object (its `.name` is
  `undefined`). -/
  | parsedOther
  /-- parse succeeded with an object. -/
  | parsedUser (u : UserData)
deriving Repr, DecidableEq

inductive LoadOutcome where
  /-- `window.location.href = 'login.html'`; the flag records whether the
  stored record was removed first. -/
  | redirectLogin (removedStored : Bool)
  /-- the session was accepted and rendered. -/
  | accepted (u : UserData)
deriving Repr, DecidableEq

def LoadOutcome.isRedirect : LoadOutcome → Bool
  | .redirectLogin _ => true
  | .accepted _ => false

def loadUserInfo : StoredSession → LoadOutcome
  | .absent => .redirectLogin false
  | .malformed => .redirectLogin true
  | .parsedOther => .redirectLogin true
  | .parsedUser u =>
    if jsTruthyStr u.name then .accepted u else .redirectLogin true

/-- C4. Session load fails closed: an absent record, a parse failure, a
non-object value, or a missing/empty `name` all redirect to the login
page; a parsed object with a truthy `name` is accepted; and any accepted
outcome can only have come from a parsed object passing that check. -/
theorem loadUserInfo_fails_closed :
    ((loadUserInfo .absent).isRedirect = true) ∧
    ((loadUserInfo .malformed).isRedirect = true) ∧
    ((loadUserInfo .parsedOther).isRedirect = true) ∧
    (∀ u : UserData, jsTruthyStr u.name = false →
      (loadUserInfo (.parsedUser u)).isRedirect = true) ∧
    (∀ u : UserData, jsTruthyStr u.name = true →
      loadUserInfo (.parsedUser u) = .accepted u) ∧
    (∀ (s : StoredSession) (u : UserData), loadUserInfo s = .accepted u →
      s = .parsedUser u ∧ jsTruthyStr u.name = true) := by
  refine ⟨rfl, rfl, rfl, fun u h => ?_, fun u h => ?_, fun s u h => ?_⟩
  · simp [loadUserInfo, h, LoadOutcome.isRedirect]
  · simp [loadUserInfo, h]
  · cases s with
    | absent => simp [loadUserInfo] at h
    | malformed => simp [loadUserInfo] at h
    | parsedOther => simp [loadUserInfo] at h
    | parsedUser v =>
      by_cases hv : jsTruthyStr v.name = true
      · simp only [loadUserInfo, hv, if_true] at h
        cases h
        exact ⟨rfl, hv⟩
      · simp [loadUserInfo, hv] at h

/-- Witness for C4 at concrete records: a record with empty `name`
redirects, and the record `{name: "Asha Rao"}` is accepted. -/
theorem loadUserInfo_fails_closed_witness :
    (loadUserInfo (.parsedUser ⟨some "", none, none, none⟩)).isRedirect = true ∧
    loadUserInfo (.parsedUser ⟨some "Asha Rao", none, none, some "farmer"⟩) =
      .accepted ⟨some "Asha Rao", none, none, some "farmer"⟩ :=
  ⟨loadUserInfo_fails_closed.2.2.2.1 ⟨some "", none, none, none⟩ (by decide),
   loadUserInfo_fails_closed.2.2.2.2.1 ⟨some "Asha Rao", none, none, some "farmer"⟩
     (by decide)⟩

/-! ## Admin batch history load (dashboard module)

```js
const analysisCounts = await Promise.all(
    farmers.map(f =>
        apiFetch(`${API_BASE}/api/admin/farmers/${f.id}/analysis`)
            .then(a => ({ id: f.id, count: a.length, latest: a[0] || null }))
            .catch(() => ({ id: f.id, count: 0, latest: null }))
    )
);
```

A settled promise is an `Except`; `Promise.all` (`promiseAll`) rejects
with the first rejection, `.catch` (`catchTo`) converts a rejection into
a fulfilled placeholder, and the per-farmer lookup outcome is the oracle
`net : Nat → Except ApiError (List Analysis)` indexed by the farmer id.
`a[0] || null` is `a.head?` (an object is never falsy).
-/

structure Analysis where
  crop_type : Option String
  disease_prediction : Option String
  created_at : String
deriving Repr, DecidableEq

structure Farmer where
  id : Nat
  name : String
  created_at : Option String
deriving Repr, DecidableEq

structure HistoryEntry where
  id : Nat
  count : Nat
  latest : Option Analysis
deriving Repr, DecidableEq

/-- `Promise.all`: fulfilled with the list of values if every promise is
fulfilled, rejected with the first rejection otherwise. -/
def promiseAll {ε α : Type} : List (Except ε α) → Except ε (List α)
  | [] => .ok []
  | .error e :: _ => .error e
  | .ok a :: ps =>
    match promiseAll ps with
    | .ok rest => .ok (a :: rest)
    | .error e => .error e

/-- `.catch(() => fallback)`. -/
def catchTo {ε α : Type} (p : Except ε α) (fallback : α) : Except ε α :=
  match p with
  | .ok a => .ok a
  | .error _ => .ok fallback

/-- `{ id: f.id, count: a.length, latest: a[0] || null }`. -/
def historyEntry (id : Nat) (a : List Analysis) : HistoryEntry :=
  { id := id, count := a.length, latest := a.head? }

/-- The `Promise.all` expression of `loadAdminData`. -/
def loadAdminHistoryBatch (farmers : List Farmer)
    (net : Nat → Except ApiError (List Analysis)) : Except ApiError (List HistoryEntry) :=
  promiseAll (farmers.map (fun f =>
    catchTo ((net f.id).map (historyEntry f.id))
      { id := f.id, count := 0, latest := none }))

/-- C8. The joint await never rejects: for every farmer list and network
oracle the batch is fulfilled, and its entries are, in order, the real
entry (`id`, count, first analysis) for each succeeding lookup and the
zero-count placeholder `{id, count: 0, latest: null}` for each failing
one. -/
theorem loadAdminHistoryBatch_resilient (farmers : List Farmer)
    (net : Nat → Except ApiError (List Analysis)) :
    loadAdminHistoryBatch farmers net = .ok (farmers.map (fun f =>
      match net f.id with
      | .ok a => historyEntry f.id a
      | .error _ => { id := f.id, count := 0, latest := none })) := by
  unfold loadAdminHistoryBatch
  induction farmers with
  | nil => rfl
  | cons f rest ih =>
    simp only [List.map_cons]
    simp only [catchTo, Except.map] at ih
    cases hnet : net f.id <;>
      simp [promiseAll, catchTo, Except.map, hnet, ih]

/-! ## Offline directory upsert (auth module and frontend/auth.js)

```js
function cacheUser(userData) {
    const users = JSON.parse(localStorage.getItem('cropdoctor_users') || '[]');
    const idx = users.findIndex(u => u.email_phone === userData.email_phone);
    if (idx >= 0) users[idx] = userData; else users.push(userData);
    localStorage.setItem('cropdoctor_users', JSON.stringify(users));
}

// frontend/auth.js
function storeUserLocally(userData) {
    const users = JSON.parse(localStorage.getItem('cropdoctor_users') || '[]');
    // Avoid duplicates
    const existingIdx = users.findIndex(u => u.email_phone === userData.email_phone);
    if (existingIdx >= 0) { users[existingIdx] = userData; } else { users.push(userData); }
    localStorage.setItem('cropdoctor_users', JSON.stringify(users));
}
```

The upsert reads only `email_phone`; the remaining profile fields (name,
initials, address, age, role, password, loggedInAt, ...) vary between
call sites and are carried opaquely in `payload`.  The functions take and
return the directory list (the `localStorage` round-trip).
-/

structure OfflineUser where
  email_phone : String
  /-- The rest of the stored record, opaque to the upsert. -/
  payload : String
deriving Repr, DecidableEq

def cacheUser (userData : OfflineUser) (users : List OfflineUser) : List OfflineUser :=
  match users.findIdx? (fun u => u.email_phone == userData.email_phone) with
  | some idx => users.set idx userData
  | none => users ++ [userData]

def storeUserLocally (userData : OfflineUser) (users : List OfflineUser) :
    List OfflineUser :=
  match users.findIdx? (fun u => u.email_phone == userData.email_phone) with
  | some idx => users.set idx userData
  | none => users ++ [userData]

/-- Replace the first entry with the same contact, else append:
the recursive form of the findIndex/set/push upsert. -/
def upsertFirst (userData : OfflineUser) : List OfflineUser → List OfflineUser
  | [] => [userData]
  | u :: rest =>
    if u.email_phone == userData.email_phone then userData :: rest
    else u :: upsertFirst userData rest

lemma cacheUser_eq_upsertFirst (d : OfflineUser) (l : List OfflineUser) :
    cacheUser d l = upsertFirst d l := by
  induction l with
  | nil => rfl
  | cons u rest ih =>
    unfold cacheUser upsertFirst
    rw [List.findIdx?_cons]
    cases hp : (u.email_phone == d.email_phone) with
    | true =>
      simp
    | false =>
      simp only [Bool.false_eq_true, if_false, List.findIdx?_succ]
      unfold cacheUser at ih
      cases hfind : rest.findIdx? (fun u => u.email_phone == d.email_phone) with
      | none =>
        rw [hfind] at ih
        simp [← ih]
      | some i =>
        rw [hfind] at ih
        simp [← ih]

lemma upsertFirst_contacts_subset (d : OfflineUser) (l : List OfflineUser) (c : String)
    (hc : c ∈ (upsertFirst d l).map OfflineUser.email_phone) :
    c ∈ l.map OfflineUser.email_phone ∨ c = d.email_phone := by
  induction l with
  | nil => simpa [upsertFirst] using hc
  | cons u rest ih =>
    unfold upsertFirst at hc
    by_cases hp : (u.email_phone == d.email_phone) = true
    · rw [if_pos hp] at hc
      simp only [List.map_cons, List.mem_cons] at hc
      rcases hc with h | h
      · exact Or.inr h
      · exact Or.inl (by simp [h])
    · rw [if_neg hp] at hc
      simp only [List.map_cons, List.mem_cons] at hc
      rcases hc with h | h
      · exact Or.inl (by simp [h])
      · rcases ih h with h2 | h2
        · exact Or.inl (by simp [h2])
        · exact Or.inr h2

lemma countP_contact_eq_zero (key : String) (l : List OfflineUser)
    (h : key ∉ l.map OfflineUser.email_phone) :
    l.countP (fun u => u.email_phone == key) = 0 := by
  rw [List.countP_eq_zero]
  intro u hu
  simp only [beq_iff_eq]
  intro he
  exact h (by simpa [he] using List.mem_map_of_mem OfflineUser.email_phone hu)

lemma upsertFirst_props (d : OfflineUser) (l : List OfflineUser)
    (huniq : (l.map OfflineUser.email_phone).Nodup) :
    (upsertFirst d l).countP (fun u => u.email_phone == d.email_phone) = 1 ∧
    (upsertFirst d l).find? (fun u => u.email_phone == d.email_phone) = some d ∧
    ((upsertFirst d l).map OfflineUser.email_phone).Nodup := by
  induction l with
  | nil =>
    refine ⟨?_, ?_, ?_⟩ <;> simp [upsertFirst, List.countP_cons, List.find?]
  | cons u rest ih =>
    simp only [List.map_cons, List.nodup_cons] at huniq
    obtain ⟨hu_notmem, hrest⟩ := huniq
    obtain ⟨ih1, ih2, ih3⟩ := ih hrest
    unfold upsertFirst
    by_cases hp : (u.email_phone == d.email_phone) = true
    · rw [if_pos hp]
      have hkey : u.email_phone = d.email_phone := by simpa using hp
      have hzero : rest.countP (fun v => v.email_phone == d.email_phone) = 0 :=
        countP_contact_eq_zero _ _ (hkey ▸ hu_notmem)
      refine ⟨?_, ?_, ?_⟩
      · simp [List.countP_cons, hzero]
      · simp [List.find?]
      · simp only [List.map_cons, List.nodup_cons]
        exact ⟨hkey ▸ hu_notmem, hrest⟩
    · rw [if_neg hp]
      have hne : u.email_phone ≠ d.email_phone := by simpa using hp
      refine ⟨?_, ?_, ?_⟩
      · simp [List.countP_cons, hp, ih1]
      · simp [List.find?, hp, ih2]
      · simp only [List.map_cons, List.nodup_cons]
        refine ⟨fun hmem => ?_, ih3⟩
        rcases upsertFirst_contacts_subset d rest u.email_phone hmem with h2 | h2
        · exact hu_notmem h2
        · exact hne h2

/-- C9 (amended). On a directory whose contacts are unique — the
directory invariant — the upsert is a last-write-wins upsert by contact
key: afterwards exactly one position holds the entry's `email_phone`, the
first (hence only) entry found under that key carries the newly written
data, contacts stay unique, and `storeUserLocally` (frontend/auth.js) is
the same function as `cacheUser`.  (On a directory that already violates
uniqueness, only the first duplicate is overwritten, so more than one
position may hold the key — see the counterexample.) -/
theorem cacheUser_upsert (userData : OfflineUser) (users : List OfflineUser)
    (huniq : (users.map OfflineUser.email_phone).Nodup) :
    (cacheUser userData users).countP
      (fun u => u.email_phone == userData.email_phone) = 1 ∧
    (cacheUser userData users).find?
      (fun u => u.email_phone == userData.email_phone) = some userData ∧
    ((cacheUser userData users).map OfflineUser.email_phone).Nodup ∧
    storeUserLocally = cacheUser := by
  rw [cacheUser_eq_upsertFirst]
  obtain ⟨h1, h2, h3⟩ := upsertFirst_props userData users huniq
  exact ⟨h1, h2, h3, rfl⟩

/-- Witness for C9 (amended): upserting `a@x` into the unique-contact
directory `[a@x ↦ old, b@y ↦ keep]` leaves exactly one `a@x` entry, it
carries the new payload, and contacts stay unique. -/
theorem cacheUser_upsert_witness :
    (cacheUser ⟨"a@x", "new"⟩ [⟨"a@x", "old"⟩, ⟨"b@y", "keep"⟩]).countP
      (fun u => u.email_phone == "a@x") = 1 ∧
    (cacheUser ⟨"a@x", "new"⟩ [⟨"a@x", "old"⟩, ⟨"b@y", "keep"⟩]).find?
      (fun u => u.email_phone == "a@x") = some ⟨"a@x", "new"⟩ ∧
    ((cacheUser ⟨"a@x", "new"⟩ [⟨"a@x", "old"⟩, ⟨"b@y", "keep"⟩]).map
      OfflineUser.email_phone).Nodup :=
  have h := cacheUser_upsert ⟨"a@x", "new"⟩ [⟨"a@x", "old"⟩, ⟨"b@y", "keep"⟩] (by decide)
  ⟨h.1, h.2.1, h.2.2.1⟩

/-- Counterexample to C9 as stated (quantifying over every directory): in
the directory `[a@x ↦ old1, a@x ↦ old2]`, which already contains a
duplicate contact, the upsert replaces only the first occurrence —
afterwards two positions hold `a@x`, not exactly one, and the second
still carries the old data. -/
theorem cacheUser_upsert_counterexample :
    (cacheUser ⟨"a@x", "new"⟩ [⟨"a@x", "old1"⟩, ⟨"a@x", "old2"⟩]).countP
      (fun u => u.email_phone == "a@x") = 2 ∧
    cacheUser ⟨"a@x", "new"⟩ [⟨"a@x", "old1"⟩, ⟨"a@x", "old2"⟩] =
      [⟨"a@x", "new"⟩, ⟨"a@x", "old2"⟩] ∧
    (2 : Nat) ≠ 1 := by
  refine ⟨?_, ?_, by decide⟩ <;> decide
